import Mathlib

/-!
Verification of the Open-LianLi-RGB-Driver (`src/main.py`) against its
natural-language specification.

The Python program is shallowly embedded: pure string/byte manipulation
becomes Lean functions on `List Char` / `List Nat`; the USB side effects
(enumeration, claiming a configuration, endpoint writes) are modelled by an
explicit environment that fixes each transport outcome, and each operation
additionally returns the list of device actions it performed, so that
claims about "no write occurs" or "exactly one retry" are statable.
-/

namespace LianLi

/-! ### Hex decoding (`bytes.fromhex`)

CPython's `bytes.fromhex` accepts two adjacent hex digits per byte and
skips ASCII space characters between byte pairs (a space may not split the
two digits of one byte); any other character, or a dangling single digit,
raises `ValueError`.  (The space character is skipped by every CPython 3
version; 3.11+ additionally skips the other ASCII whitespace characters —
the model keeps the behaviour common to all versions.) -/

/-- Is `c` an ASCII hexadecimal digit (`0-9`, `a-f`, `A-F`)?  Stated on the
code point to keep the arithmetic explicit. -/
def isHexDigit (c : Char) : Bool :=
  decide ((48 ≤ c.toNat ∧ c.toNat ≤ 57) ∨ (97 ≤ c.toNat ∧ c.toNat ≤ 102) ∨
    (65 ≤ c.toNat ∧ c.toNat ≤ 70))

/-- Numeric value of a hex digit, `none` for a non-digit. -/
def hexVal? (c : Char) : Option Nat :=
  if 48 ≤ c.toNat ∧ c.toNat ≤ 57 then some (c.toNat - 48)
  else if 97 ≤ c.toNat ∧ c.toNat ≤ 102 then some (c.toNat - 87)
  else if 65 ≤ c.toNat ∧ c.toNat ≤ 70 then some (c.toNat - 55)
  else none

/-- Core of `bytes.fromhex`: decode a character list into bytes, skipping
spaces between byte pairs; `none` models the `ValueError`. -/
def fromhexAux : List Char → Option (List Nat)
  | [] => some []
  | [c] => if c = ' ' then some [] else none
  | c₁ :: c₂ :: rest =>
    if c₁ = ' ' then fromhexAux (c₂ :: rest)
    else
      match hexVal? c₁, hexVal? c₂ with
      | some hi, some lo => (fromhexAux rest).map (fun bs => (hi * 16 + lo) :: bs)
      | _, _ => none

/-- `bytes.fromhex` on a string. -/
def fromhex (s : String) : Option (List Nat) :=
  fromhexAux s.data

/-! ### Payload construction (`send_color_packet`, lines 59–65) -/

/-- Python line 59: `hex_color.replace("#", "").lower()` — every `'#'` is
removed (not only a leading one) and ASCII letters are lowercased. -/
def normalizeColor (c : String) : String :=
  ⟨(c.data.filter (fun ch => ch ≠ '#')).map Char.toLower⟩

/-- `DEFAULT_PACKET_HEADER` (`src/main.py` line 12). -/
def DEFAULT_PACKET_HEADER : String := "018500000014030400"

/-- `DEFAULT_PACKET_FOOTER` (`src/main.py` line 13). -/
def DEFAULT_PACKET_FOOTER : String :=
  "00000000000000000000000000180000000000000000000000000000000000000000000000000000000000000000000000000000"

/-- Default endpoint used by `manual_set_color` via `config.get("endpoint", 2)`
(`src/main.py` line 117). -/
def DEFAULT_ENDPOINT : Nat := 2

/-- Errors `send_color_packet` can raise. -/
inductive SendErr where
  | invalidPayload
deriving DecidableEq, Repr

/-- Payload construction of `send_color_packet` (lines 59–65): normalize the
color, join `header ++ color ++ footer`, decode the joined hex string as one
string; a decode failure is the `ValueError` "Invalid Hex Data". -/
def buildPayload (header color footer : String) : Except SendErr (List Nat) :=
  match fromhex (header ++ normalizeColor color ++ footer) with
  | some bs => .ok bs
  | none => .error .invalidPayload

/-- The joined hex string that `buildPayload` decodes. -/
def joined (header color footer : String) : String :=
  header ++ normalizeColor color ++ footer

/-! ### USB devices and `RGBDevice.connect` (lines 51–55)

A `UsbDev` is a descriptor as the host enumerates it.  `claimOk` records
whether `set_configuration()` would succeed on this device, and
`productStr` records the outcome of reading the product string descriptor
(`none` models a raised permission/descriptor exception);
`iProduct = 0` means the device carries no product string index at all. -/

structure UsbDev where
  idVendor : Nat
  idProduct : Nat
  iProduct : Nat
  productStr : Option String
  claimOk : Bool
deriving DecidableEq, Repr

/-- `usb.core.find(idVendor=vid, idProduct=pid)`: the first enumerated
device matching the vendor/product pair, if any. -/
def usbFind (devices : List UsbDev) (vid pid : Nat) : Option UsbDev :=
  devices.find? (fun d => d.idVendor = vid && d.idProduct = pid)

/-- Errors `RGBDevice.connect` can raise. -/
inductive ConnErr where
  | deviceNotFound
  | claimFailed
deriving DecidableEq, Repr

/-- Device-level actions an operation performs, in order. -/
inductive Action where
  /-- a `set_configuration()` call on a device -/
  | claim (d : UsbDev)
  /-- a `dev.write(endpoint, data)` attempt on a device -/
  | write (d : UsbDev) (endpoint : Nat) (data : List Nat)
  /-- a `usb.core.find` lookup for a vendor/product pair -/
  | locate (vid pid : Nat)
deriving DecidableEq, Repr

/-- Is this action a write attempt? -/
def Action.isWrite : Action → Bool
  | .write .. => true
  | _ => false

/-- Is this action a device lookup? -/
def Action.isLocate : Action → Bool
  | .locate .. => true
  | _ => false

/-- Is this action a `set_configuration` call? -/
def Action.isClaim : Action → Bool
  | .claim _ => true
  | _ => false

/-- `RGBDevice.connect` (lines 51–55): `usb.core.find` for the identity; if
no device matches, raise `ValueError` ("not found"); otherwise call
`set_configuration()` on the found device and return it as the live handle.
Returns the performed actions together with the outcome. -/
def connect (devices : List UsbDev) (vid pid : Nat) :
    List Action × Except ConnErr UsbDev :=
  match usbFind devices vid pid with
  | none => ([Action.locate vid pid], .error .deviceNotFound)
  | some d =>
    ([Action.locate vid pid, Action.claim d],
      if d.claimOk then .ok d else .error .claimFailed)

/-! ### `RGBDevice.send_color_packet` (lines 57–79)

The transport outcomes of one send operation are fixed by a `SendEnv`:
the result of the first write, the enumeration visible at reconnect time,
and the result of the second write.  A `usb.core.USBError` on the first
write triggers the single reconnect-and-retry; any failure inside the
retry (`locate` failing, `set_configuration` failing, or the second write
failing) is caught and yields `False`. -/

/-- Outcome of a device write in the environment. -/
inductive WriteRes where
  | ok
  | usbError
deriving DecidableEq, Repr

/-- Transport environment for one `send_color_packet` call. -/
structure SendEnv where
  firstWrite : WriteRes
  reconnectDevices : List UsbDev
  secondWrite : WriteRes
deriving Repr

/-- State of an `RGBDevice` object: identity, endpoint and the current
handle (`self.dev`, `none` before a successful connect). -/
structure RGBState where
  vid : Nat
  pid : Nat
  endpoint : Nat
  dev : Option UsbDev
deriving Repr

/-- `RGBDevice.send_color_packet` (lines 57–79): build the payload from the
joined hex string (raising on invalid hex before any device I/O); then
write it to the endpoint, and on a `USBError` re-run `connect` with the
same identity and retry the write once on the new handle, returning
`False` if anything in the retry fails.  Returns the device actions
performed, and either the raised error or the boolean result. -/
def send_color_packet (st : RGBState) (env : SendEnv)
    (hex_color header footer : String) :
    List Action × Except SendErr Bool :=
  match buildPayload header hex_color footer with
  | .error e => ([], .error e)
  | .ok packet_data =>
    match st.dev with
    | none => ([], .ok false)
    | some d =>
      match env.firstWrite with
      | .ok => ([Action.write d st.endpoint packet_data], .ok true)
      | .usbError =>
        let first := Action.write d st.endpoint packet_data
        match connect env.reconnectDevices st.vid st.pid with
        | (acts, .error _) => (first :: acts, .ok false)
        | (acts, .ok d₂) =>
          match env.secondWrite with
          | .ok => (first :: acts ++ [Action.write d₂ st.endpoint packet_data], .ok true)
          | .usbError => (first :: acts ++ [Action.write d₂ st.endpoint packet_data], .ok false)

/-! ### `scan_devices` (lines 83–99)

Each device is handled inside a `try`/`except: pass` block: the vid/pid
are formatted, the product name is read (`get_string` when `iProduct` is
nonzero, the literal `"Unknown"` when `iProduct` is 0), and a row is
printed.  If the string-descriptor read raises, the bare `except` swallows
the exception and the loop moves on — nothing of that device is printed. -/

/-- The row the loop body of `scan_devices` prints for one device, `none`
when the body raises (swallowed) and the device produces no row. -/
def scanRow (d : UsbDev) : Option (Nat × Nat × String) :=
  if d.iProduct ≠ 0 then
    match d.productStr with
    | some s => some (d.idVendor, d.idProduct, s)
    | none => none
  else some (d.idVendor, d.idProduct, "Unknown")

/-- `scan_devices`: the rows printed for an enumeration. -/
def scan_devices (devices : List UsbDev) : List (Nat × Nat × String) :=
  devices.filterMap scanRow

/-! ### `manual_set_color` (lines 102–134) and `save_config` (lines 27–38)

Identifier values are modelled in their normalized integer form (the form
`RGBDevice.__init__` reduces them to); Python falsiness of a missing or
zero identifier becomes `none` / `some 0`. -/

/-- The persisted configuration record (fields of `save_config`'s dict). -/
structure SavedConfig where
  vid : Nat
  pid : Nat
  endpoint : Nat
  packet_header : String
  packet_footer : String
deriving DecidableEq, Repr

/-- The previously stored configuration as `load_config` surfaces it; a
missing or corrupted file is all-`none`. -/
structure StoredConfig where
  vid : Option Nat
  pid : Option Nat
  endpoint : Option Nat
  packet_header : Option String
  packet_footer : Option String
deriving Repr

/-- CLI arguments of the `set` command. -/
structure Args where
  color : String
  vid : Option Nat
  pid : Option Nat
deriving Repr

/-- Python truthiness of an optional identifier (`None`, `0` are falsy). -/
def truthyId : Option Nat → Bool
  | none => false
  | some n => n ≠ 0

/-- Lines 107–108: `args.vid if args.vid else config.get("vid")`. -/
def resolveId (primary fallback : Option Nat) : Option Nat :=
  if truthyId primary then primary else fallback

/-- Outcome message class of `manual_set_color`. -/
inductive MsgResult where
  | usageError
  | connectError (e : ConnErr)
  | sendError (e : SendErr)
  | sendFailed
  | success
deriving DecidableEq, Repr

/-- Environment for one `set` invocation: the enumeration seen by the
initial connect, and the transport outcomes of the send. -/
structure RunEnv where
  initialDevices : List UsbDev
  send : SendEnv
deriving Repr

/-- `manual_set_color`: resolve vid/pid (CLI args over stored config, with
Python truthiness), fall back to stored or default endpoint/header/footer,
connect, send, and call `save_config` with the working configuration
exactly when the send returned `True`; every raised exception is caught by
the outer `try` and leads to an error message without saving.  Returns the
device actions, the outcome, and the configuration passed to `save_config`
(`none` when `save_config` is not called). -/
def manual_set_color (cfg : StoredConfig) (args : Args) (env : RunEnv) :
    List Action × MsgResult × Option SavedConfig :=
  match resolveId args.vid cfg.vid, resolveId args.pid cfg.pid with
  | some v, some p =>
    if v = 0 ∨ p = 0 then ([], .usageError, none)
    else
      let endpoint := cfg.endpoint.getD DEFAULT_ENDPOINT
      let header := cfg.packet_header.getD DEFAULT_PACKET_HEADER
      let footer := cfg.packet_footer.getD DEFAULT_PACKET_FOOTER
      match connect env.initialDevices v p with
      | (acts, .error e) => (acts, .connectError e, none)
      | (acts₀, .ok d) =>
        match send_color_packet ⟨v, p, endpoint, some d⟩ env.send args.color header footer with
        | (acts₁, .error e) => (acts₀ ++ acts₁, .sendError e, none)
        | (acts₁, .ok true) =>
          (acts₀ ++ acts₁, .success, some ⟨v, p, endpoint, header, footer⟩)
        | (acts₁, .ok false) => (acts₀ ++ acts₁, .sendFailed, none)
  | _, _ => ([], .usageError, none)

/-! ### Spec-side predicates and the `True`/`False` view of payload building -/

/-- Does `buildPayload` raise (the `except ValueError` path)? -/
def buildPayloadFails (header color footer : String) : Bool :=
  match buildPayload header color footer with
  | .error _ => true
  | .ok _ => false

/-- The spec's notion of an invalid joined hex string for C1: odd length or
some non-hex character. -/
def specInvalidHex (s : String) : Bool :=
  decide (s.length % 2 = 1) || s.data.any (fun c => !isHexDigit c)

/-- What `bytes.fromhex` actually accepts: byte pairs of two adjacent hex
digits, with ASCII spaces permitted between pairs and at either end. -/
def validLooseHex : List Char → Bool
  | [] => true
  | [c] => c = ' '
  | c₁ :: c₂ :: rest =>
    if c₁ = ' ' then validLooseHex (c₂ :: rest)
    else isHexDigit c₁ && isHexDigit c₂ && validLooseHex rest

/-! ### Concrete fixtures used to instantiate theorems on sample inputs -/

/-- A sample claimable device with the Lian Li identity. -/
def devA : UsbDev := ⟨0x0416, 0x7399, 1, some "LianLi HUB", true⟩

/-- A second device with the same identity (seen after reconnecting). -/
def devB : UsbDev := ⟨0x0416, 0x7399, 2, some "LianLi HUB", true⟩

/-- A device whose `set_configuration` fails. -/
def devNoClaim : UsbDev := ⟨0x0416, 0x7399, 1, some "LianLi HUB", false⟩

/-- A device with a product-string index whose descriptor read raises. -/
def devUnreadable : UsbDev := ⟨0x1a2b, 0x3c4d, 5, none, true⟩

/-! ### Character-level helper lemmas -/

theorem char_eq_iff_toNat {a b : Char} : a = b ↔ a.toNat = b.toNat :=
  ⟨fun h => by rw [h], fun h => Char.eq_of_val_eq (UInt32.toNat.inj h)⟩

theorem toNat_ofNat_valid {n : Nat} (h : n < 55296) : (Char.ofNat n).toNat = n := by
  unfold Char.ofNat
  rw [dif_pos (Or.inl h)]
  rfl

theorem toNat_toLower (c : Char) :
    c.toLower.toNat = if 65 ≤ c.toNat ∧ c.toNat ≤ 90 then c.toNat + 32 else c.toNat := by
  unfold Char.toLower
  split
  · next h => rw [if_pos h]; exact toNat_ofNat_valid (by omega)
  · next h => rw [if_neg h]

theorem hexVal_isSome (c : Char) : (hexVal? c).isSome = isHexDigit c := by
  unfold hexVal? isHexDigit
  split_ifs with h1 h2 h3 <;> simp_all

theorem isHexDigit_ne_space {c : Char} (h : isHexDigit c = true) : c ≠ ' ' := by
  intro hc
  subst hc
  simp [isHexDigit] at h

theorem isHexDigit_toLower {c : Char} (h : isHexDigit c = true) :
    isHexDigit c.toLower = true := by
  simp only [isHexDigit, decide_eq_true_eq] at h ⊢
  rw [toNat_toLower]
  split <;> omega

theorem toLower_eq_hash_iff {c : Char} : c.toLower = '#' ↔ c = '#' := by
  rw [char_eq_iff_toNat, char_eq_iff_toNat, toNat_toLower]
  have h35 : ('#'.toNat : Nat) = 35 := by decide
  rw [h35]
  split <;> omega

/-! ### Structural lemmas about `fromhexAux` -/

theorem fromhexAux_isSome (l : List Char) : (fromhexAux l).isSome = validLooseHex l := by
  induction l using fromhexAux.induct <;>
    simp_all [fromhexAux, validLooseHex, ← hexVal_isSome]
  rename_i c₁ c₂ rest hne hx
  intro h1 h2
  exfalso
  obtain ⟨hi, hhi⟩ := Option.isSome_iff_exists.mp h1
  obtain ⟨lo, hlo⟩ := Option.isSome_iff_exists.mp h2
  exact hx hi lo hhi hlo

theorem fromhexAux_allHex (l : List Char) :
    (∀ c ∈ l, isHexDigit c = true) → l.length % 2 = 0 →
    ∃ bs, fromhexAux l = some bs ∧ 2 * bs.length = l.length := by
  induction l using fromhexAux.induct with
  | case1 => exact fun _ _ => ⟨[], rfl, rfl⟩
  | case2 => intro _ heven; simp at heven
  | case3 c hc => intro _ heven; simp at heven
  | case4 c₂ rest ih =>
    intro hall _
    exact absurd rfl (isHexDigit_ne_space (hall ' ' (by simp)))
  | case5 c₁ c₂ rest hne hi lo hhi hlo ih =>
    intro hall heven
    obtain ⟨bs, hbs, hlen⟩ := ih (fun c hc => hall c (by simp [hc]))
      (by simp at heven ⊢; omega)
    refine ⟨(hi * 16 + lo) :: bs, ?_, ?_⟩
    · simp [fromhexAux, hne, hhi, hlo, hbs]
    · simp [hlen]; omega
  | case6 c₁ c₂ rest hne hx =>
    intro hall _
    exfalso
    have h1 := hall c₁ (by simp)
    have h2 := hall c₂ (by simp)
    rw [← hexVal_isSome] at h1 h2
    obtain ⟨hi, hhi⟩ := Option.isSome_iff_exists.mp h1
    obtain ⟨lo, hlo⟩ := Option.isSome_iff_exists.mp h2
    exact hx hi lo hhi hlo

theorem validLooseHex_no_space (l : List Char) :
    (∀ c ∈ l, c ≠ ' ') →
    validLooseHex l = (decide (l.length % 2 = 0) && l.all isHexDigit) := by
  induction l using validLooseHex.induct with
  | case1 => intro _; rfl
  | case2 c =>
    intro h
    have hc := h c (by simp)
    simp [validLooseHex, hc, Nat.one_mod]
  | case3 c₂ rest ih => intro h; exact absurd rfl (h ' ' (by simp))
  | case4 c₁ c₂ rest hne ih =>
    intro h
    have := ih (fun c hc => h c (by simp [hc]))
    simp only [validLooseHex, if_neg hne, this, List.all_cons, List.length_cons]
    have hdec : decide ((rest.length + 1 + 1) % 2 = 0) = decide (rest.length % 2 = 0) := by
      have hmod : (rest.length + 1 + 1) % 2 = rest.length % 2 := by omega
      rw [hmod]
    rw [hdec]
    cases isHexDigit c₁ <;> cases isHexDigit c₂ <;>
      cases hrm : decide (rest.length % 2 = 0) <;> simp

/-! ### Lemmas about color normalization and the joined string -/

theorem string_length_data (s : String) : s.length = s.data.length := rfl

theorem joined_data (header color footer : String) :
    (joined header color footer).data =
      header.data ++ ((color.data.filter (fun ch => ch ≠ '#')).map Char.toLower)
        ++ footer.data := by
  simp [joined, normalizeColor]

theorem isHexDigit_ne_hash {c : Char} (h : isHexDigit c = true) : c ≠ '#' := by
  intro hc
  subst hc
  simp [isHexDigit] at h

/-- A valid hex color survives normalization: same length, still hex. -/
theorem normalizeColor_of_hex {c : String} (h : ∀ ch ∈ c.data, isHexDigit ch = true) :
    (normalizeColor c).data = c.data.map Char.toLower ∧
      (normalizeColor c).length = c.length ∧
      ∀ ch ∈ (normalizeColor c).data, isHexDigit ch = true := by
  have hfilter : c.data.filter (fun ch => ch ≠ '#') = c.data := by
    rw [List.filter_eq_self]
    intro a ha
    simpa using isHexDigit_ne_hash (h a ha)
  have hdata : (normalizeColor c).data = c.data.map Char.toLower := by
    show (c.data.filter (fun ch => ch ≠ '#')).map Char.toLower = _
    rw [hfilter]
  refine ⟨hdata, ?_, ?_⟩
  · rw [string_length_data, string_length_data, hdata, List.length_map]
  · intro ch hch
    rw [hdata] at hch
    obtain ⟨a, ha, rfl⟩ := List.mem_map.mp hch
    exact isHexDigit_toLower (h a ha)

/-- Normalization is determined by the lowercased character list. -/
theorem normalize_eq_of_toLower_eq {l₁ l₂ : List Char}
    (h : l₁.map Char.toLower = l₂.map Char.toLower) :
    (l₁.filter (fun ch => ch ≠ '#')).map Char.toLower
      = (l₂.filter (fun ch => ch ≠ '#')).map Char.toLower := by
  induction l₁ generalizing l₂ with
  | nil =>
    cases l₂ with
    | nil => rfl
    | cons b t₂ => simp at h
  | cons a t₁ ih =>
    cases l₂ with
    | nil => simp at h
    | cons b t₂ =>
      simp only [List.map_cons, List.cons.injEq] at h
      obtain ⟨hab, ht⟩ := h
      by_cases ha : a = '#'
      · have hb : b = '#' := by
          rw [← toLower_eq_hash_iff, ← hab, ha]
          rfl
        rw [List.filter_cons_of_neg (by simp [ha]), List.filter_cons_of_neg (by simp [hb])]
        exact ih ht
      · have hb : b ≠ '#' := by
          intro hb
          exact ha (toLower_eq_hash_iff.mp (by rw [hab, hb]; rfl))
        rw [List.filter_cons_of_pos (by simp [ha]), List.filter_cons_of_pos (by simp [hb]),
          List.map_cons, List.map_cons, hab, ih ht]

/-! ### Claim C1 -/

/-- C1, counterexample: the joined string `"ff 00"` (header `"ff 00"`, empty
color and footer) is invalid by the spec's criterion — odd length and a
non-hex character (the space) — yet `buildPayload` succeeds, because
`bytes.fromhex` permits ASCII spaces between byte pairs.  So `buildPayload`
does not fail exactly on odd length or a non-hex character. -/
theorem buildPayload_spec_mismatch :
    specInvalidHex (joined "ff 00" "" "") = true ∧
    buildPayloadFails "ff 00" "" "" = false ∧
    buildPayload "ff 00" "" "" = .ok [255, 0] := by
  refine ⟨by decide, by decide, rfl⟩

/-- C1, amended: `buildPayload` fails with `InvalidPayload` exactly when the
joined header+color+footer string is not a sequence of two-adjacent-hex-digit
byte pairs with ASCII spaces permitted between pairs; on joined strings
containing no space this coincides with the spec's criterion (odd length or
a non-hex character), and the three parts are still decoded as one joined
string, so a malformed color alone does make it fail. -/
theorem buildPayload_invalid_iff :
    (∀ header color footer : String,
      buildPayloadFails header color footer
        = !validLooseHex (joined header color footer).data) ∧
    (∀ s : String, (∀ c ∈ s.data, c ≠ ' ') →
      (validLooseHex s.data = false ↔ specInvalidHex s = true)) := by
  constructor
  · intro header color footer
    have h := fromhexAux_isSome (joined header color footer).data
    unfold buildPayloadFails buildPayload fromhex
    rw [show header ++ normalizeColor color ++ footer = joined header color footer from rfl]
    cases hfx : fromhexAux (joined header color footer).data <;> simp_all
  · intro s hs
    rw [validLooseHex_no_space s.data hs]
    unfold specInvalidHex
    rw [string_length_data]
    cases hall : s.data.all isHexDigit <;> cases hpar : decide (s.data.length % 2 = 0) <;>
      simp_all [List.all_eq_true, List.any_eq_true]

/-- Witness for C1's amended theorem at concrete inputs. -/
theorem buildPayload_invalid_iff_witness :
    (buildPayloadFails "018500000014030400" "GG0000" "00"
      = !validLooseHex (joined "018500000014030400" "GG0000" "00").data) ∧
    (validLooseHex "abc".data = false ↔ specInvalidHex "abc" = true) :=
  ⟨buildPayload_invalid_iff.1 "018500000014030400" "GG0000" "00",
    buildPayload_invalid_iff.2 "abc" (by decide)⟩

/-! ### Claim C3 -/

/-- C3: when the joined string is not valid hex, `send_color_packet` raises
the `InvalidPayload` error with an empty action trace — no device write,
partial or complete, is attempted. -/
theorem send_no_write_on_invalid (st : RGBState) (env : SendEnv)
    (color header footer : String) (e : SendErr)
    (herr : buildPayload header color footer = .error e) :
    send_color_packet st env color header footer = ([], .error e) := by
  unfold send_color_packet
  rw [herr]

/-- Witness for C3: color `"GG0000"` under the default template, with a live
device and a healthy transport, yields the error and performs no action. -/
theorem send_no_write_on_invalid_witness :
    buildPayload DEFAULT_PACKET_HEADER "GG0000" DEFAULT_PACKET_FOOTER
      = .error .invalidPayload ∧
    send_color_packet ⟨0x0416, 0x7399, 2, some devA⟩ ⟨.ok, [devA], .ok⟩
      "GG0000" DEFAULT_PACKET_HEADER DEFAULT_PACKET_FOOTER
      = ([], .error .invalidPayload) :=
  ⟨rfl, send_no_write_on_invalid _ _ _ _ _ _ rfl⟩

/-! ### Claim C5 -/

/-- C5: for a valid even-length hex color `h` (joined with a valid
even-length hex template), `buildPayload` decodes the concatenation into a
byte sequence of length `(len(header)+len(h)+len(footer))/2`. -/
theorem buildPayload_length (header h footer : String)
    (hh : ∀ c ∈ h.data, isHexDigit c = true) (hhe : h.length % 2 = 0)
    (hH : ∀ c ∈ header.data, isHexDigit c = true) (hHe : header.length % 2 = 0)
    (hF : ∀ c ∈ footer.data, isHexDigit c = true) (hFe : footer.length % 2 = 0) :
    ∃ bs, buildPayload header h footer = .ok bs ∧
      bs.length = (header.length + h.length + footer.length) / 2 := by
  obtain ⟨hdata, hlen, hhex⟩ := normalizeColor_of_hex hh
  have hjd : (joined header h footer).data
      = header.data ++ (normalizeColor h).data ++ footer.data := by
    simp [joined]
  have hallL : ∀ c ∈ (joined header h footer).data, isHexDigit c = true := by
    rw [hjd]
    intro c hc
    rcases List.mem_append.mp hc with hc' | hc'
    · rcases List.mem_append.mp hc' with h1 | h2
      · exact hH c h1
      · exact hhex c h2
    · exact hF c hc'
  have hlenL : (joined header h footer).data.length % 2 = 0 := by
    rw [hjd]
    simp only [List.length_append]
    rw [← string_length_data, ← string_length_data, ← string_length_data, hlen]
    omega
  obtain ⟨bs, hbs, h2len⟩ := fromhexAux_allHex _ hallL hlenL
  refine ⟨bs, ?_, ?_⟩
  · unfold buildPayload fromhex
    rw [show header ++ normalizeColor h ++ footer = joined header h footer from rfl, hbs]
  · have htot : (joined header h footer).data.length
        = header.length + h.length + footer.length := by
      rw [hjd]
      simp only [List.length_append]
      rw [← string_length_data, ← string_length_data, ← string_length_data, hlen]
    omega

/-- Witness for C5: the default template with color `"ff0000"` decodes to
`(18 + 6 + 104) / 2 = 64` bytes. -/
theorem buildPayload_length_witness :
    ∃ bs, buildPayload DEFAULT_PACKET_HEADER "ff0000" DEFAULT_PACKET_FOOTER = .ok bs ∧
      bs.length = (DEFAULT_PACKET_HEADER.length + "ff0000".length
        + DEFAULT_PACKET_FOOTER.length) / 2 :=
  buildPayload_length DEFAULT_PACKET_HEADER "ff0000" DEFAULT_PACKET_FOOTER
    (by decide) (by decide) (by decide) (by decide) (by decide) (by decide)

/-! ### Claim C6 -/

/-- C6: a leading `'#'` on the color does not change the payload, and letter
case does not change the payload: any two colors with the same lowercasing
build the same payload. -/
theorem buildPayload_hash_and_case (header footer : String) :
    (∀ c : String, buildPayload header ("#" ++ c) footer = buildPayload header c footer) ∧
    (∀ c₁ c₂ : String, c₁.data.map Char.toLower = c₂.data.map Char.toLower →
      buildPayload header c₁ footer = buildPayload header c₂ footer) := by
  constructor
  · intro c
    have hnorm : normalizeColor ("#" ++ c) = normalizeColor c := by
      apply congrArg String.mk
      have hd : ("#" ++ c).data = '#' :: c.data := by simp
      rw [hd, List.filter_cons_of_neg (by simp)]
    unfold buildPayload fromhex
    rw [hnorm]
  · intro c₁ c₂ hcase
    have hnorm : normalizeColor c₁ = normalizeColor c₂ :=
      congrArg String.mk (normalize_eq_of_toLower_eq hcase)
    unfold buildPayload fromhex
    rw [hnorm]

/-- Witness for C6 at `"#FF0000"` / `"FF0000"` / `"ff0000"` with the default
template. -/
theorem buildPayload_hash_and_case_witness :
    buildPayload DEFAULT_PACKET_HEADER "#FF0000" DEFAULT_PACKET_FOOTER
      = buildPayload DEFAULT_PACKET_HEADER "FF0000" DEFAULT_PACKET_FOOTER ∧
    buildPayload DEFAULT_PACKET_HEADER "FF0000" DEFAULT_PACKET_FOOTER
      = buildPayload DEFAULT_PACKET_HEADER "ff0000" DEFAULT_PACKET_FOOTER :=
  ⟨(buildPayload_hash_and_case DEFAULT_PACKET_HEADER DEFAULT_PACKET_FOOTER).1 "FF0000",
    (buildPayload_hash_and_case DEFAULT_PACKET_HEADER DEFAULT_PACKET_FOOTER).2
      "FF0000" "ff0000" (by decide)⟩

/-! ### Claim C10 -/

/-- C10: the payload built for a color equals the payload built for the same
color with every `'#'` removed, wherever the `'#'` characters appear — the
code strips them all, not only a leading one. -/
theorem buildPayload_strip_all_hashes (header footer c : String) :
    buildPayload header c footer
      = buildPayload header ⟨c.data.filter (fun ch => ch ≠ '#')⟩ footer := by
  have hnorm : normalizeColor ⟨c.data.filter (fun ch => ch ≠ '#')⟩ = normalizeColor c := by
    apply congrArg String.mk
    apply congrArg (List.map Char.toLower)
    show (c.data.filter _).filter _ = _
    rw [List.filter_filter]
    simp
  unfold buildPayload fromhex
  rw [hnorm]

theorem action_write_beq_locate (d : UsbDev) (ep : Nat) (data : List Nat) (v p : Nat) :
    (Action.write d ep data == Action.locate v p) = false := by
  simp [beq_eq_false_iff_ne]

theorem action_claim_beq_locate (d : UsbDev) (v p : Nat) :
    (Action.claim d == Action.locate v p) = false := by
  simp [beq_eq_false_iff_ne]

/-! ### Claim C2 -/

/-- C2: when the first write raises a transport error, exactly one recovery
cycle runs: one relocate, with the same vendor/product identity, and at most
one more write, on the newly located handle.  If the relocate fails the
operation reports failure after a single write attempt; if the relocate
succeeds the write is retried exactly once on the new handle and the
operation succeeds iff that second write succeeds.  At most two write
attempts ever occur. -/
theorem send_retry_once (st : RGBState) (env : SendEnv)
    (color header footer : String) (d : UsbDev) (pkt : List Nat)
    (hdev : st.dev = some d)
    (hpkt : buildPayload header color footer = .ok pkt)
    (hfail : env.firstWrite = .usbError) :
    ((send_color_packet st env color header footer).1.countP (fun a => a.isLocate) = 1) ∧
    ((send_color_packet st env color header footer).1.count (Action.locate st.vid st.pid) = 1) ∧
    ((send_color_packet st env color header footer).1.countP (fun a => a.isWrite) ≤ 2) ∧
    (∀ e, (connect env.reconnectDevices st.vid st.pid).2 = .error e →
      (send_color_packet st env color header footer).2 = .ok false ∧
      (send_color_packet st env color header footer).1.countP (fun a => a.isWrite) = 1) ∧
    (∀ d₂, (connect env.reconnectDevices st.vid st.pid).2 = .ok d₂ →
      (send_color_packet st env color header footer).1
        = Action.write d st.endpoint pkt :: (connect env.reconnectDevices st.vid st.pid).1
            ++ [Action.write d₂ st.endpoint pkt] ∧
      ((send_color_packet st env color header footer).2 = .ok true ↔
        env.secondWrite = .ok)) := by
  unfold send_color_packet connect
  rw [hpkt, hdev, hfail]
  cases hfind : usbFind env.reconnectDevices st.vid st.pid with
  | none =>
    simp [List.countP, List.countP.go, List.count, Action.isWrite, Action.isLocate,
      beq_iff_eq, action_write_beq_locate, action_claim_beq_locate]
  | some d₂ =>
    cases hclaim : d₂.claimOk with
    | false =>
      simp [hclaim, List.countP, List.countP.go, List.count, Action.isWrite,
        Action.isLocate, beq_iff_eq, action_write_beq_locate, action_claim_beq_locate]
    | true =>
      cases hsw : env.secondWrite <;>
        simp_all [List.countP, List.countP.go, List.count, Action.isWrite,
          Action.isLocate, beq_iff_eq, action_write_beq_locate, action_claim_beq_locate]

/-- Witness for C2: a transport error on the first write with a healthy
reconnect environment leads to exactly one relocate and two write attempts. -/
theorem send_retry_once_witness :
    ((send_color_packet ⟨0x0416, 0x7399, 2, some devA⟩
        ⟨.usbError, [devB], .ok⟩ "ff0000" "" "").1.countP (fun a => a.isLocate) = 1) ∧
    ((send_color_packet ⟨0x0416, 0x7399, 2, some devA⟩
        ⟨.usbError, [devB], .ok⟩ "ff0000" "" "").1.countP (fun a => a.isWrite) ≤ 2) :=
  ⟨(send_retry_once ⟨0x0416, 0x7399, 2, some devA⟩ ⟨.usbError, [devB], .ok⟩
      "ff0000" "" "" devA [255, 0, 0] rfl rfl rfl).1,
   (send_retry_once ⟨0x0416, 0x7399, 2, some devA⟩ ⟨.usbError, [devB], .ok⟩
      "ff0000" "" "" devA [255, 0, 0] rfl rfl rfl).2.2.1⟩

/-! ### Claim C4 -/

/-- C4: `connect` fails with `DeviceNotFound` when no enumerated device
matches the vendor/product pair; on a match it returns the first
encountered matching device as the handle, after performing exactly one
`set_configuration` claim on that device; a claim failure is fatal
(`ClaimFailed`) and not retried. -/
theorem connect_spec (devices : List UsbDev) (vid pid : Nat) :
    (usbFind devices vid pid = none →
      connect devices vid pid = ([Action.locate vid pid], .error .deviceNotFound)) ∧
    (∀ d, usbFind devices vid pid = some d →
      (connect devices vid pid).1 = [Action.locate vid pid, Action.claim d] ∧
      ((connect devices vid pid).1.countP (fun a => a.isClaim) = 1) ∧
      (d.claimOk = true → (connect devices vid pid).2 = .ok d) ∧
      (d.claimOk = false → (connect devices vid pid).2 = .error .claimFailed)) ∧
    (∀ pre d post, devices = pre ++ d :: post →
      (∀ d' ∈ pre, ¬(d'.idVendor = vid ∧ d'.idProduct = pid)) →
      d.idVendor = vid → d.idProduct = pid →
      usbFind devices vid pid = some d) := by
  refine ⟨?_, ?_, ?_⟩
  · intro h
    unfold connect
    rw [h]
  · intro d hd
    unfold connect
    rw [hd]
    refine ⟨rfl, by simp [List.countP, List.countP.go, Action.isClaim], ?_, ?_⟩
    · intro hc; simp [hc]
    · intro hc; simp [hc]
  · intro pre d post hdevs hpre hv hp
    subst hdevs
    induction pre with
    | nil => simp [usbFind, List.find?_cons, hv, hp]
    | cons a t ih =>
      have ha := hpre a (List.mem_cons_self a t)
      have hpa : (decide (a.idVendor = vid) && decide (a.idProduct = pid)) = false := by
        rcases Decidable.not_and_iff_or_not.mp ha with h | h <;> simp [h]
      unfold usbFind at ih ⊢
      rw [List.cons_append, List.find?_cons, hpa]
      exact ih (fun d' hd' => hpre d' (List.mem_cons_of_mem a hd'))

/-- Witness for C4: the empty enumeration fails with `DeviceNotFound`; in an
enumeration where the second and third devices match, the handle is the
second device (the first match), claimed once. -/
theorem connect_spec_witness :
    connect [] 0x0416 0x7399 = ([Action.locate 0x0416 0x7399], .error .deviceNotFound) ∧
    usbFind [devUnreadable, devA, devB] 0x0416 0x7399 = some devA ∧
    (connect [devUnreadable, devA, devB] 0x0416 0x7399).2 = .ok devA ∧
    (connect [devNoClaim] 0x0416 0x7399).2 = .error .claimFailed :=
  ⟨(connect_spec [] 0x0416 0x7399).1 rfl,
    (connect_spec [devUnreadable, devA, devB] 0x0416 0x7399).2.2
      [devUnreadable] devA [devB] rfl (by decide) rfl rfl,
    (((connect_spec [devUnreadable, devA, devB] 0x0416 0x7399).2.1 devA
      (by decide)).2.2.1) rfl,
    (((connect_spec [devNoClaim] 0x0416 0x7399).2.1 devNoClaim (by decide)).2.2.2) rfl⟩

/-! ### Claim C7 -/

/-- C7: `manual_set_color` calls `save_config` exactly when the send
returned success, and then with precisely the working configuration it
used (resolved vid/pid, endpoint, header, footer); on any failure — usage
error, connect error, raised send error, or an unsuccessful send — nothing
is written, so a previously persisted configuration is never overwritten. -/
theorem manual_set_color_persists (cfg : StoredConfig) (args : Args) (env : RunEnv) :
    ((manual_set_color cfg args env).2.1 = .success ↔
      ((manual_set_color cfg args env).2.2).isSome = true) ∧
    (∀ v p, resolveId args.vid cfg.vid = some v → resolveId args.pid cfg.pid = some p →
      (manual_set_color cfg args env).2.1 = .success →
      (manual_set_color cfg args env).2.2 = some ⟨v, p,
        cfg.endpoint.getD DEFAULT_ENDPOINT,
        cfg.packet_header.getD DEFAULT_PACKET_HEADER,
        cfg.packet_footer.getD DEFAULT_PACKET_FOOTER⟩) := by
  unfold manual_set_color
  cases hv : resolveId args.vid cfg.vid with
  | none => simp
  | some v =>
    cases hp : resolveId args.pid cfg.pid with
    | none => simp
    | some p =>
      dsimp only
      by_cases h0 : v = 0 ∨ p = 0
      · rw [if_pos h0]
        simp
      · rw [if_neg h0]
        rcases hc : connect env.initialDevices v p with ⟨acts, res⟩
        cases res with
        | error e => simp [hc]
        | ok d =>
          rcases hs : send_color_packet ⟨v, p, cfg.endpoint.getD DEFAULT_ENDPOINT, some d⟩
              env.send args.color (cfg.packet_header.getD DEFAULT_PACKET_HEADER)
              (cfg.packet_footer.getD DEFAULT_PACKET_FOOTER) with ⟨acts₁, r⟩
          cases r with
          | error e => simp [hc, hs]
          | ok b => cases b <;> simp [hc, hs]

/-- Witness for C7: a successful end-to-end run persists exactly the used
configuration. -/
theorem manual_set_color_persists_witness :
    (manual_set_color ⟨none, none, none, none, none⟩
      ⟨"ff0000", some 0x0416, some 0x7399⟩ ⟨[devA], ⟨.ok, [], .ok⟩⟩).2.1 = .success →
    (manual_set_color ⟨none, none, none, none, none⟩
      ⟨"ff0000", some 0x0416, some 0x7399⟩ ⟨[devA], ⟨.ok, [], .ok⟩⟩).2.2
      = some ⟨0x0416, 0x7399, DEFAULT_ENDPOINT, DEFAULT_PACKET_HEADER, DEFAULT_PACKET_FOOTER⟩ :=
  (manual_set_color_persists ⟨none, none, none, none, none⟩
    ⟨"ff0000", some 0x0416, some 0x7399⟩ ⟨[devA], ⟨.ok, [], .ok⟩⟩).2
    0x0416 0x7399 rfl rfl

/-! ### Claim C8 -/

/-- C8, counterexample: the default footer constant has 104 hex digits, not
107 as the claim states. -/
theorem default_footer_length_cex :
    DEFAULT_PACKET_FOOTER.length = 104 ∧ ¬ DEFAULT_PACKET_FOOTER.length = 107 := by
  refine ⟨rfl, by decide⟩

/-- C8, amended: the default header is `018500000014030400`, the default
footer is a fixed 104-hex-digit zero-padded tail containing the substring
`180000` (at offset 26), and the default endpoint is 2. -/
theorem default_template_constants :
    DEFAULT_PACKET_HEADER = "018500000014030400" ∧
    DEFAULT_PACKET_FOOTER.length = 104 ∧
    DEFAULT_PACKET_FOOTER
      = "00000000000000000000000000" ++ "180000"
        ++ "000000000000000000000000000000000000000000000000000000000000000000000000" ∧
    (∀ c ∈ DEFAULT_PACKET_FOOTER.data, isHexDigit c = true) ∧
    DEFAULT_ENDPOINT = 2 := by
  refine ⟨rfl, rfl, by decide, by decide, rfl⟩

/-! ### Claim C9 -/

/-- C9, counterexample: a device with a product-string index whose
descriptor read raises is skipped entirely by `scan_devices` — it is not
reported at all, in particular not with an `"Unknown"` product name. -/
theorem scan_skips_unreadable_cex :
    scan_devices [devUnreadable] = [] ∧
    ¬ scan_devices [devUnreadable]
        = [(devUnreadable.idVendor, devUnreadable.idProduct, "Unknown")] := by
  refine ⟨rfl, by decide⟩

/-- C9, amended: a permission or descriptor error on one device's
string-descriptor read does not fail the whole scan — the exception is
swallowed and the remaining devices are still reported — but the failing
device is skipped, not reported; the `"Unknown"` name is used only for
devices whose `iProduct` index is 0; and scanning zero devices yields an
empty listing, not an error. -/
theorem scan_devices_spec :
    (∀ d devices, scanRow d = none → scan_devices (d :: devices) = scan_devices devices) ∧
    (∀ d, d.iProduct ≠ 0 → d.productStr = none → scanRow d = none) ∧
    (∀ d, d.iProduct = 0 → scanRow d = some (d.idVendor, d.idProduct, "Unknown")) ∧
    scan_devices [] = [] := by
  refine ⟨?_, ?_, ?_, rfl⟩
  · intro d devices h
    simp [scan_devices, h]
  · intro d h1 h2
    simp [scanRow, h1, h2]
  · intro d h
    simp [scanRow, h]

/-- Witness for C9's amended theorem on concrete devices. -/
theorem scan_devices_spec_witness :
    scan_devices [devUnreadable, devA] = scan_devices [devA] ∧
    scanRow devUnreadable = none ∧
    scanRow ⟨7, 8, 0, none, true⟩ = some (7, 8, "Unknown") :=
  ⟨scan_devices_spec.1 devUnreadable [devA] rfl,
    scan_devices_spec.2.1 devUnreadable (by decide) rfl,
    scan_devices_spec.2.2.1 ⟨7, 8, 0, none, true⟩ rfl⟩

end LianLi
